import Mathlib

/-!
Verification of the retrieval-augmented news agent and its ingestion pipeline.

The development shallowly embeds the two pipelines of the repository:

* `src/agent.py` — the query-time agent (`NewsAnalystAgent`): semantic search,
  context assembly from the document store, and answer synthesis.  External
  collaborators (embedding model, vector index endpoint, Firestore document
  store, generative model) are modelled as fields of `AgentEnv`; a call that
  can raise an exception returns `Except String α`, where `error` models the
  raised exception.  Each operation also returns the list of collaborator
  calls it performed (`AgentEvent`), so that "no document-store lookup" and
  "no generative-model call" are provable statements.

* `src/main.py` and `src/data/data_loader.py` — the ingestion pipeline:
  sampling, per-row enrichment, embedding, keyed document-store writes and
  vector-index upserts.  The document store and the vector index are modelled
  as maps in `PipeState`; all enrichment producers catch their own errors in
  the source (returning defaults), so they appear as total functions.

Embedding vectors are modelled as `List Int`: none of the verified properties
depends on the numeric values of an embedding, only on whether producing it
succeeded and on which ids the index returns.
-/

namespace NewsAgent

/-- A neighbor returned by `index_endpoint.find_neighbors`; the agent reads
only its `id` field. -/
structure Neighbor where
  id : String
  deriving DecidableEq, Repr

/-- The fields of a Firestore article document that `_get_article_context`
reads via `data.get(...)`.  A field absent from the stored dict is `none`.
`vertex_ai_extraction` is stored in the source as a dict and rendered with
`str(...)`; here the field carries that string rendering directly. -/
structure FirestoreDoc where
  gemini_summary : Option String
  vertex_ai_extraction : Option String
  deriving DecidableEq, Repr

/-- One entry of the context bundle assembled by `_get_article_context`. -/
structure ContextEntry where
  id : String
  summary : String
  key_info : String
  deriving DecidableEq, Repr

/-- A collaborator call performed by the agent while answering one query. -/
inductive AgentEvent where
  | embedCall (query : String)
  | neighborsCall (num_neighbors : Nat)
  | storeGetCall (doc_id : String)
  | generateCall (prompt : String)
  deriving DecidableEq, Repr

/-- Checks that an event is a document-store lookup. -/
def AgentEvent.isStoreGet : AgentEvent → Bool
  | .storeGetCall _ => true
  | _ => false

/-- Checks that an event is a generative-model call. -/
def AgentEvent.isGenerate : AgentEvent → Bool
  | .generateCall _ => true
  | _ => false

/-- External collaborators of `NewsAnalystAgent`: the text-embedding model,
the vector-index endpoint, the Firestore document store, and the generative
model.  `Except.error` models a raised exception. -/
structure AgentEnv where
  getEmbeddings : String → Except String (List Int)
  findNeighbors : List Int → Nat → Except String (List Neighbor)
  storeGet : String → Except String (Option FirestoreDoc)
  generateContent : String → Except String String

/-- Embeds `NewsAnalystAgent._find_relevant_articles`: embed the query, ask
the vector index for `top_k` neighbors, return their ids in index order.
Neither call is wrapped in try/except in the source, so failures propagate. -/
def find_relevant_articles (env : AgentEnv) (top_k : Nat) (query : String) :
    Except String (List String) × List AgentEvent :=
  match env.getEmbeddings query with
  | .error e => (.error e, [.embedCall query])
  | .ok query_embedding =>
    match env.findNeighbors query_embedding top_k with
    | .error e => (.error e, [.embedCall query, .neighborsCall top_k])
    | .ok neighbors =>
      (.ok (neighbors.map Neighbor.id), [.embedCall query, .neighborsCall top_k])

/-- The context-bundle entry built for one found document in
`_get_article_context`: summary and key-info fields fall back to fixed
defaults when absent from the stored dict. -/
def mkContextEntry (doc_id : String) (data : FirestoreDoc) : ContextEntry :=
  { id := doc_id
    summary := data.gemini_summary.getD "No summary available."
    key_info := data.vertex_ai_extraction.getD "No key information extracted." }

/-- The loop body of `_get_article_context`: one point lookup per id, in input
order; a found document appends an entry to the bundle, a missing one is
skipped with a warning, and a raised store exception propagates. -/
def get_article_context_loop (env : AgentEnv) (article_ids : List String)
    (context_bundle : List ContextEntry) :
    Except String (List ContextEntry) × List AgentEvent :=
  match article_ids with
  | [] => (.ok context_bundle, [])
  | doc_id :: rest =>
    match env.storeGet doc_id with
    | .error e => (.error e, [.storeGetCall doc_id])
    | .ok none =>
      let r := get_article_context_loop env rest context_bundle
      (r.1, .storeGetCall doc_id :: r.2)
    | .ok (some data) =>
      let r := get_article_context_loop env rest
        (context_bundle ++ [mkContextEntry doc_id data])
      (r.1, .storeGetCall doc_id :: r.2)

/-- Embeds `NewsAnalystAgent._get_article_context`. -/
def get_article_context (env : AgentEnv) (article_ids : List String) :
    Except String (List ContextEntry) × List AgentEvent :=
  get_article_context_loop env article_ids []

/-- One labeled source block of the context string built in
`_synthesize_news_report` (`i` is the zero-based enumeration index). -/
def context_str_block (i : Nat) (doc : ContextEntry) : String :=
  "--- Start of Source " ++ toString (i + 1) ++ " ---\n" ++
  "Source ID: " ++ doc.id ++ "\n" ++
  "Summary: " ++ doc.summary ++ "\n" ++
  "Key Information Extracted: " ++ doc.key_info ++ "\n" ++
  "--- End of Source " ++ toString (i + 1) ++ " ---\n\n"

/-- The full context string of `_synthesize_news_report`: the source blocks
concatenated in context order. -/
def context_str (context : List ContextEntry) : String :=
  String.join (context.enum.map fun p => context_str_block p.1 p.2)

/-- The rendered `NEWS_ANALYST_PROMPT.format(query=..., context_str=...)`
from `src/core/prompts.py`. -/
def NEWS_ANALYST_PROMPT_render (query ctx : String) : String :=
  "\n        You are an expert News Analyst. Your task is to provide a clear, factual, and synthesized answer to the user's question.\n        Base your answer *exclusively* on the provided news article sources.\n        Do not use any external knowledge.\n        When you use information from a source, cite it at the end of the sentence using its ID (e.g., [document-id-123]).\n        If the sources do not contain enough information to answer the question, state that clearly.\n\n        **User's Question:**\n        " ++
  query ++
  "\n\n        **Provided Sources:**\n        " ++
  ctx ++
  "\n\n        **Synthesized News Report:**\n"

/-- The fixed fallback string returned when the generative-model call inside
`_synthesize_news_report` raises. -/
def synthesisFallbackMsg : String :=
  "There was an error while generating the final answer."

/-- Embeds `NewsAnalystAgent._synthesize_news_report`: render the prompt,
call the generative model once; a raised error is caught and converted to the
fixed fallback string, so the function always returns a string. -/
def synthesize_news_report (env : AgentEnv) (query : String)
    (context : List ContextEntry) : String × List AgentEvent :=
  let prompt := NEWS_ANALYST_PROMPT_render query (context_str context)
  match env.generateContent prompt with
  | .ok response => (response, [.generateCall prompt])
  | .error _ => (synthesisFallbackMsg, [.generateCall prompt])

/-- The terminal message when retrieval returns no article ids. -/
def noArticlesMsg : String :=
  "I'm sorry, I could not find any relevant news articles for your query."

/-- The terminal message when no retrieved id could be fetched from the
document store. -/
def noContentMsg : String :=
  "I found some article references, but I was unable to retrieve their content from the database."

/-- Embeds `NewsAnalystAgent.answer`: the three-stage orchestrator with its
two early exits.  Exceptions raised by retrieval or context assembly
propagate (`.error`); the synthesis stage never raises. -/
def answer (env : AgentEnv) (top_k : Nat) (query : String) :
    Except String String × List AgentEvent :=
  let r1 := find_relevant_articles env top_k query
  match r1.1 with
  | .error e => (.error e, r1.2)
  | .ok article_ids =>
    if article_ids.isEmpty then (.ok noArticlesMsg, r1.2)
    else
      let r2 := get_article_context env article_ids
      match r2.1 with
      | .error e => (.error e, r1.2 ++ r2.2)
      | .ok context =>
        if context.isEmpty then (.ok noContentMsg, r1.2 ++ r2.2)
        else
          let r3 := synthesize_news_report env query context
          (.ok r3.1, r1.2 ++ r2.2 ++ r3.2)

/-- Every event emitted by the retrieval stage is an embedding or
neighbor-search call: never a store lookup, never a generation call. -/
theorem find_relevant_articles_events (env : AgentEnv) (top_k : Nat)
    (query : String) :
    ∀ e ∈ (find_relevant_articles env top_k query).2,
      e.isStoreGet = false ∧ e.isGenerate = false := by
  unfold find_relevant_articles
  cases h1 : env.getEmbeddings query with
  | error e => simp [AgentEvent.isStoreGet, AgentEvent.isGenerate]
  | ok v =>
    cases h2 : env.findNeighbors v top_k with
    | error e => simp [h2, AgentEvent.isStoreGet, AgentEvent.isGenerate]
    | ok ns => simp [h2, AgentEvent.isStoreGet, AgentEvent.isGenerate]

/-- C1: when retrieval succeeds with an empty id list, `answer` returns
exactly the "no relevant articles" message, and its event trace contains no
document-store lookup and no generative-model call. -/
theorem answer_empty_retrieval (env : AgentEnv) (top_k : Nat) (query : String)
    (h : (find_relevant_articles env top_k query).1 = .ok []) :
    (answer env top_k query).1 = .ok noArticlesMsg ∧
    ∀ e ∈ (answer env top_k query).2,
      e.isStoreGet = false ∧ e.isGenerate = false := by
  have htr : (answer env top_k query) =
      (.ok noArticlesMsg, (find_relevant_articles env top_k query).2) := by
    unfold answer
    simp [h]
  rw [htr]
  exact ⟨rfl, find_relevant_articles_events env top_k query⟩

/-- A concrete environment whose vector index returns no neighbors. -/
def envEmptyIndex : AgentEnv :=
  { getEmbeddings := fun _ => .ok [0]
    findNeighbors := fun _ _ => .ok []
    storeGet := fun _ => .ok none
    generateContent := fun _ => .ok "generated text" }

/-- Witness for C1 at a concrete environment and query. -/
theorem answer_empty_retrieval_witness :
    (find_relevant_articles envEmptyIndex 3 "q").1 = .ok [] ∧
    ((answer envEmptyIndex 3 "q").1 = .ok noArticlesMsg ∧
     ∀ e ∈ (answer envEmptyIndex 3 "q").2,
       e.isStoreGet = false ∧ e.isGenerate = false) :=
  ⟨rfl, answer_empty_retrieval envEmptyIndex 3 "q" rfl⟩

/-- Every event emitted by the context-assembly loop is a document-store
lookup; in particular none is a generative-model call. -/
theorem get_article_context_loop_events (env : AgentEnv) :
    ∀ (article_ids : List String) (acc : List ContextEntry),
      ∀ e ∈ (get_article_context_loop env article_ids acc).2,
        e.isStoreGet = true := by
  intro article_ids
  induction article_ids with
  | nil => intro acc e he; simp [get_article_context_loop] at he
  | cons doc_id rest ih =>
    intro acc e he
    unfold get_article_context_loop at he
    cases hs : env.storeGet doc_id with
    | error err =>
      rw [hs] at he
      simp at he
      simp [he, AgentEvent.isStoreGet]
    | ok od =>
      cases od with
      | none =>
        rw [hs] at he
        simp at he
        rcases he with he | he
        · simp [he, AgentEvent.isStoreGet]
        · exact ih acc e he
      | some data =>
        rw [hs] at he
        simp at he
        rcases he with he | he
        · simp [he, AgentEvent.isStoreGet]
        · exact ih (acc ++ [mkContextEntry doc_id data]) e he

/-- When every lookup succeeds without a raised exception and the store's
contents on the queried ids are described by `store`, the context-assembly
loop returns the accumulator followed by one entry per present id, in input
order, with absent ids dropped. -/
theorem get_article_context_loop_pure (env : AgentEnv)
    (store : String → Option FirestoreDoc) :
    ∀ (article_ids : List String) (acc : List ContextEntry),
      (∀ i ∈ article_ids, env.storeGet i = .ok (store i)) →
      (get_article_context_loop env article_ids acc).1 =
        .ok (acc ++ article_ids.filterMap fun i =>
          (store i).map (mkContextEntry i)) := by
  intro article_ids
  induction article_ids with
  | nil => intro acc _; simp [get_article_context_loop]
  | cons doc_id rest ih =>
    intro acc hst
    have hd : env.storeGet doc_id = .ok (store doc_id) := hst doc_id (by simp)
    have hrest : ∀ i ∈ rest, env.storeGet i = .ok (store i) := by
      intro i hi; exact hst i (by simp [hi])
    unfold get_article_context_loop
    rw [hd]
    cases hsd : store doc_id with
    | none => simp [ih acc hrest, hsd]
    | some data =>
      simp only
      rw [ih (acc ++ [mkContextEntry doc_id data]) hrest]
      simp [hsd]

/-- C2: when retrieval succeeds with a non-empty id list but every retrieved
id is absent from the document store, `answer` returns exactly the "could not
retrieve content" message and its event trace contains no generative-model
call. -/
theorem answer_all_ids_missing (env : AgentEnv) (top_k : Nat) (query : String)
    (article_ids : List String)
    (hret : (find_relevant_articles env top_k query).1 = .ok article_ids)
    (hne : article_ids ≠ [])
    (hmiss : ∀ i ∈ article_ids, env.storeGet i = .ok none) :
    (answer env top_k query).1 = .ok noContentMsg ∧
    ∀ e ∈ (answer env top_k query).2, e.isGenerate = false := by
  have hctx : (get_article_context env article_ids).1 = .ok [] := by
    have h0 := get_article_context_loop_pure env (fun _ => none) article_ids []
      (by intro i hi; exact hmiss i hi)
    unfold get_article_context
    rw [h0]
    simp
  have htr : answer env top_k query =
      (.ok noContentMsg,
        (find_relevant_articles env top_k query).2 ++
          (get_article_context env article_ids).2) := by
    unfold answer
    simp [hret, hne, hctx]
  rw [htr]
  refine ⟨rfl, ?_⟩
  intro e he
  simp at he
  rcases he with he | he
  · exact (find_relevant_articles_events env top_k query e he).2
  · have := get_article_context_loop_events env article_ids [] e he
    cases e with
    | embedCall q => rfl
    | neighborsCall n => rfl
    | storeGetCall i => rfl
    | generateCall p => simp [AgentEvent.isStoreGet] at this

/-- A concrete environment whose index returns one id that the store does not
contain. -/
def envMissingDoc : AgentEnv :=
  { getEmbeddings := fun _ => .ok [0]
    findNeighbors := fun _ _ => .ok [{ id := "a1" }]
    storeGet := fun _ => .ok none
    generateContent := fun _ => .ok "generated text" }

/-- Witness for C2 at a concrete environment and query. -/
theorem answer_all_ids_missing_witness :
    (find_relevant_articles envMissingDoc 3 "q").1 = .ok ["a1"] ∧
    ["a1"] ≠ ([] : List String) ∧
    (∀ i ∈ ["a1"], envMissingDoc.storeGet i = .ok none) ∧
    ((answer envMissingDoc 3 "q").1 = .ok noContentMsg ∧
     ∀ e ∈ (answer envMissingDoc 3 "q").2, e.isGenerate = false) :=
  ⟨rfl, by simp, by intro i _; rfl,
    answer_all_ids_missing envMissingDoc 3 "q" ["a1"] rfl (by simp)
      (by intro i _; rfl)⟩

/-- C3: with a store whose lookups all succeed, `_get_article_context`
returns exactly the entries of the present ids, in input order, dropping
absent ids, and the output is never longer than the input. -/
theorem get_article_context_order (env : AgentEnv)
    (store : String → Option FirestoreDoc) (article_ids : List String)
    (hst : ∀ i ∈ article_ids, env.storeGet i = .ok (store i)) :
    (get_article_context env article_ids).1 =
      .ok (article_ids.filterMap fun i => (store i).map (mkContextEntry i)) ∧
    (article_ids.filterMap fun i =>
      (store i).map (mkContextEntry i)).length ≤ article_ids.length := by
  constructor
  · have := get_article_context_loop_pure env store article_ids [] hst
    simpa [get_article_context] using this
  · exact List.length_filterMap_le _ _

/-- A document store holding documents for ids `A` and `C` only. -/
def storeAC : String → Option FirestoreDoc := fun i =>
  if i = "A" then some { gemini_summary := some "summary A",
                         vertex_ai_extraction := some "info A" }
  else if i = "C" then some { gemini_summary := some "summary C",
                              vertex_ai_extraction := some "info C" }
  else none

/-- A concrete environment backed by `storeAC`. -/
def envAC : AgentEnv :=
  { getEmbeddings := fun _ => .ok [0]
    findNeighbors := fun _ _ => .ok []
    storeGet := fun i => .ok (storeAC i)
    generateContent := fun _ => .ok "generated text" }

/-- Witness for C3: input order `[A, B, C]` with only `A` and `C` present
yields the bundle `[A, C]` in that order. -/
theorem get_article_context_order_witness :
    (∀ i ∈ ["A", "B", "C"], envAC.storeGet i = .ok (storeAC i)) ∧
    ((get_article_context envAC ["A", "B", "C"]).1 =
       .ok (["A", "B", "C"].filterMap fun i =>
         (storeAC i).map (mkContextEntry i)) ∧
     (["A", "B", "C"].filterMap fun i =>
       (storeAC i).map (mkContextEntry i)).length ≤ ["A", "B", "C"].length) ∧
    (["A", "B", "C"].filterMap fun i => (storeAC i).map (mkContextEntry i)) =
      [mkContextEntry "A" { gemini_summary := some "summary A",
                            vertex_ai_extraction := some "info A" },
       mkContextEntry "C" { gemini_summary := some "summary C",
                            vertex_ai_extraction := some "info C" }] :=
  ⟨by intro i _; rfl,
   get_article_context_order envAC storeAC ["A", "B", "C"] (by intro i _; rfl),
   by decide⟩

/-- C10: an id present in the store contributes an entry to the assembled
context even when its record lacks `gemini_summary` or
`vertex_ai_extraction`; the missing fields are replaced by the fixed default
strings, and the entry is included rather than skipped. -/
theorem get_article_context_defaults (env : AgentEnv)
    (store : String → Option FirestoreDoc) (article_ids : List String)
    (i : String) (d : FirestoreDoc)
    (hst : ∀ j ∈ article_ids, env.storeGet j = .ok (store j))
    (hi : i ∈ article_ids) (hd : store i = some d) :
    ∃ l, (get_article_context env article_ids).1 = .ok l ∧
      mkContextEntry i d ∈ l ∧
      (d.gemini_summary = none →
        (mkContextEntry i d).summary = "No summary available.") ∧
      (d.vertex_ai_extraction = none →
        (mkContextEntry i d).key_info = "No key information extracted.") := by
  refine ⟨article_ids.filterMap fun j => (store j).map (mkContextEntry j),
    (get_article_context_order env store article_ids hst).1, ?_, ?_, ?_⟩
  · exact List.mem_filterMap.mpr ⟨i, hi, by rw [hd]; rfl⟩
  · intro hg; simp [mkContextEntry, hg]
  · intro hv; simp [mkContextEntry, hv]

/-- A document whose stored dict lacks both optional fields. -/
def bareDoc : FirestoreDoc :=
  { gemini_summary := none, vertex_ai_extraction := none }

/-- A concrete environment whose store holds only the bare document under
id `x`. -/
def envBareDoc : AgentEnv :=
  { getEmbeddings := fun _ => .ok [0]
    findNeighbors := fun _ _ => .ok [{ id := "x" }]
    storeGet := fun i => .ok (if i = "x" then some bareDoc else none)
    generateContent := fun _ => .ok "generated text" }

/-- Witness for C10 at a concrete store and id. -/
theorem get_article_context_defaults_witness :
    (∀ j ∈ ["x"], envBareDoc.storeGet j =
       .ok (if j = "x" then some bareDoc else none)) ∧
    "x" ∈ ["x"] ∧
    (if "x" = "x" then some bareDoc else none) = some bareDoc ∧
    ∃ l, (get_article_context envBareDoc ["x"]).1 = .ok l ∧
      mkContextEntry "x" bareDoc ∈ l ∧
      (bareDoc.gemini_summary = none →
        (mkContextEntry "x" bareDoc).summary = "No summary available.") ∧
      (bareDoc.vertex_ai_extraction = none →
        (mkContextEntry "x" bareDoc).key_info =
          "No key information extracted.") :=
  ⟨by intro j _; rfl, by simp, by simp,
   get_article_context_defaults envBareDoc
     (fun i => if i = "x" then some bareDoc else none) ["x"] "x" bareDoc
     (by intro j _; rfl) (by simp) (by simp)⟩

/-- C4: when the generative-model call on the rendered prompt raises, the
synthesizer returns exactly the fixed fallback string.  It cannot propagate
the error as an exception: its return type is a plain string, the only
fallible call inside it being wrapped by the try/except. -/
theorem synthesize_news_report_fallback (env : AgentEnv) (query : String)
    (context : List ContextEntry) (e : String)
    (_hne : context ≠ [])
    (herr : env.generateContent
      (NEWS_ANALYST_PROMPT_render query (context_str context)) = .error e) :
    (synthesize_news_report env query context).1 = synthesisFallbackMsg := by
  unfold synthesize_news_report
  simp [herr]

/-- A context entry used by the concrete synthesizer environments. -/
def entryA1 : ContextEntry :=
  { id := "a1", summary := "summary one", key_info := "info one" }

/-- A concrete environment whose generative model always raises. -/
def envGenError : AgentEnv :=
  { getEmbeddings := fun _ => .ok [0]
    findNeighbors := fun _ _ => .ok [{ id := "a1" }]
    storeGet := fun i => .ok (if i = "a1"
      then some { gemini_summary := some "summary one",
                  vertex_ai_extraction := some "info one" }
      else none)
    generateContent := fun _ => .error "API error" }

/-- Witness for C4 at a concrete environment, query and context. -/
theorem synthesize_news_report_fallback_witness :
    [entryA1] ≠ ([] : List ContextEntry) ∧
    envGenError.generateContent
      (NEWS_ANALYST_PROMPT_render "q" (context_str [entryA1])) =
      .error "API error" ∧
    (synthesize_news_report envGenError "q" [entryA1]).1 =
      synthesisFallbackMsg :=
  ⟨by simp, rfl,
   synthesize_news_report_fallback envGenError "q" [entryA1] "API error"
     (by simp) rfl⟩

/-- C6 (amended): when the generative-model call on the rendered prompt
succeeds, the synthesizer calls the model exactly once — its event trace is
the single generation call on the rendered prompt — and returns the model's
text output verbatim, with no trimming. -/
theorem synthesize_news_report_verbatim (env : AgentEnv) (query : String)
    (context : List ContextEntry) (t : String)
    (_hne : context ≠ [])
    (hok : env.generateContent
      (NEWS_ANALYST_PROMPT_render query (context_str context)) = .ok t) :
    (synthesize_news_report env query context).1 = t ∧
    (synthesize_news_report env query context).2 =
      [.generateCall (NEWS_ANALYST_PROMPT_render query (context_str context))] := by
  unfold synthesize_news_report
  simp [hok]

/-- Trimming of surrounding whitespace (Python `str.strip()`), written over
the character sequence. -/
def stripWhitespace (s : String) : String :=
  String.mk
    (((s.data.dropWhile Char.isWhitespace).reverse.dropWhile
      Char.isWhitespace).reverse)

/-- A concrete environment whose generative model returns text surrounded by
whitespace. -/
def envPaddedText : AgentEnv :=
  { getEmbeddings := fun _ => .ok [0]
    findNeighbors := fun _ _ => .ok [{ id := "a1" }]
    storeGet := fun _ => .ok none
    generateContent := fun _ => .ok " answer text " }

/-- Counterexample for C6 as stated: the source returns `response.text`
without stripping, so a model output with surrounding whitespace is returned
unchanged and differs from its trimmed form. -/
theorem synthesize_news_report_no_trim_counterexample :
    (synthesize_news_report envPaddedText "q" [entryA1]).1 = " answer text " ∧
    stripWhitespace " answer text " = "answer text" ∧
    (synthesize_news_report envPaddedText "q" [entryA1]).1 ≠
      stripWhitespace " answer text " := by
  refine ⟨rfl, by decide, ?_⟩
  intro h
  rw [show stripWhitespace " answer text " = "answer text" by decide] at h
  exact absurd h (by decide)

/-- Witness for the amended C6 at a concrete environment, query and
context. -/
theorem synthesize_news_report_verbatim_witness :
    [entryA1] ≠ ([] : List ContextEntry) ∧
    envPaddedText.generateContent
      (NEWS_ANALYST_PROMPT_render "q" (context_str [entryA1])) =
      .ok " answer text " ∧
    ((synthesize_news_report envPaddedText "q" [entryA1]).1 = " answer text " ∧
     (synthesize_news_report envPaddedText "q" [entryA1]).2 =
       [.generateCall (NEWS_ANALYST_PROMPT_render "q" (context_str [entryA1]))]) :=
  ⟨by simp, rfl,
   synthesize_news_report_verbatim envPaddedText "q" [entryA1] " answer text "
     (by simp) rfl⟩

/-- When every lookup in the id list succeeds (returns, rather than raises),
the context-assembly loop returns a bundle rather than an error. -/
theorem get_article_context_loop_ok (env : AgentEnv) :
    ∀ (article_ids : List String) (acc : List ContextEntry),
      (∀ i ∈ article_ids, ∃ d, env.storeGet i = .ok d) →
      ∃ l, (get_article_context_loop env article_ids acc).1 = .ok l := by
  intro article_ids
  induction article_ids with
  | nil => intro acc _; exact ⟨acc, rfl⟩
  | cons doc_id rest ih =>
    intro acc hok
    obtain ⟨d, hd⟩ := hok doc_id (by simp)
    have hrest : ∀ i ∈ rest, ∃ d, env.storeGet i = .ok d := by
      intro i hi; exact hok i (by simp [hi])
    unfold get_article_context_loop
    rw [hd]
    cases d with
    | none =>
      obtain ⟨l, hl⟩ := ih acc hrest
      exact ⟨l, hl⟩
    | some data =>
      obtain ⟨l, hl⟩ := ih (acc ++ [mkContextEntry doc_id data]) hrest
      exact ⟨l, hl⟩

/-- A concrete environment whose embedding provider raises. -/
def envEmbedError : AgentEnv :=
  { getEmbeddings := fun _ => .error "embedding provider failure"
    findNeighbors := fun _ _ => .ok []
    storeGet := fun _ => .ok none
    generateContent := fun _ => .ok "generated text" }

/-- Counterexample for C5 as stated: `_find_relevant_articles` wraps neither
its embedding call nor its index call in try/except, so when the embedding
provider raises, `answer` propagates the exception instead of returning a
string result. -/
theorem answer_raises_counterexample :
    (answer envEmbedError 3 "q").1 = .error "embedding provider failure" ∧
    ∀ s, (answer envEmbedError 3 "q").1 ≠ .ok s := by
  refine ⟨rfl, ?_⟩
  intro s h
  rw [show (answer envEmbedError 3 "q").1 =
    .error "embedding provider failure" from rfl] at h
  exact absurd h (by simp)

/-- C5 (amended): when the embedding call, the neighbor search and every
document-store lookup succeed, every path through `answer` terminates with a
string result — in particular a generative-model failure never escapes,
being converted to the fallback string inside the synthesizer. -/
theorem answer_total_of_providers_ok (env : AgentEnv) (top_k : Nat)
    (query : String) (v : List Int) (ns : List Neighbor)
    (hemb : env.getEmbeddings query = .ok v)
    (hnn : env.findNeighbors v top_k = .ok ns)
    (hst : ∀ i, ∃ d, env.storeGet i = .ok d) :
    ∃ s, (answer env top_k query).1 = .ok s := by
  have hret : find_relevant_articles env top_k query =
      (.ok (ns.map Neighbor.id),
        [.embedCall query, .neighborsCall top_k]) := by
    unfold find_relevant_articles
    simp [hemb, hnn]
  obtain ⟨l, hl⟩ := get_article_context_loop_ok env (ns.map Neighbor.id) []
    (by intro i _; exact hst i)
  unfold answer
  rw [hret]
  simp only
  cases hids : (ns.map Neighbor.id).isEmpty with
  | true => exact ⟨noArticlesMsg, by simp [hids]⟩
  | false =>
    have hctx : (get_article_context env (ns.map Neighbor.id)).1 = .ok l := hl
    cases hle : l.isEmpty with
    | true =>
      refine ⟨noContentMsg, ?_⟩
      simp [hids, get_article_context, hl, hle]
    | false =>
      refine ⟨(synthesize_news_report env query l).1, ?_⟩
      simp [hids, get_article_context, hl, hle]

/-- A concrete environment where retrieval and store succeed but the
generative model raises. -/
def envOnlyGenFails : AgentEnv :=
  { getEmbeddings := fun _ => .ok [0]
    findNeighbors := fun _ _ => .ok [{ id := "a1" }]
    storeGet := fun i => .ok (if i = "a1"
      then some { gemini_summary := some "summary one",
                  vertex_ai_extraction := some "info one" }
      else none)
    generateContent := fun _ => .error "API error" }

/-- Witness for the amended C5: with working retrieval and store but a
failing generative model, `answer` still returns a string. -/
theorem answer_total_of_providers_ok_witness :
    envOnlyGenFails.getEmbeddings "q" = .ok [0] ∧
    envOnlyGenFails.findNeighbors [0] 3 = .ok [{ id := "a1" }] ∧
    (∀ i, ∃ d, envOnlyGenFails.storeGet i = .ok d) ∧
    ∃ s, (answer envOnlyGenFails 3 "q").1 = .ok s :=
  ⟨rfl, rfl, fun _ => ⟨_, rfl⟩,
   answer_total_of_providers_ok envOnlyGenFails 3 "q" [0] [{ id := "a1" }]
     rfl rfl (fun _ => ⟨_, rfl⟩)⟩

/-- A sampled dataset row with the columns `run_pipeline` reads; `id` carries
the `str(row['id'])` rendering used as the document key. -/
structure Row where
  id : String
  document : String
  summary : String
  deriving DecidableEq, Repr

/-- The full enriched record `run_pipeline` writes to Firestore for one row.
`vertex_ai_extraction` is a dict in the source and the two entity lists pass
through the formatting helpers; all are carried here as their produced
values rendered to strings, which none of the verified properties
inspects. -/
structure ArticleRecord where
  gcs_uri : String
  document_id_in_file : String
  reference_summary : String
  gemini_summary : String
  textrank_summary : String
  vertex_ai_extraction : String
  nl_api_entities : String
  spacy_entities : String
  deriving DecidableEq, Repr

/-- External collaborators of the ingestion pipeline.  `sourceRows` models
downloading and parsing `xsum/train.jsonl` (an `error` is a raised download
exception); `sample` models `DataFrame.sample(n, random_state=42)`, a pure
function of the filtered frame because the seed is fixed.  The five
enrichment producers catch their own exceptions in the source and return
defaults, so they are total; the embedding call can raise.  `index_ok` is
the truthiness test `if index_endpoint:` and `upsert_ok` tells whether
`upsert_datapoints` succeeds for an id. -/
structure IngestEnv where
  sourceRows : Except String (List Row)
  sample : List Row → Nat → List Row
  summarize_gemini : String → String
  summarize_textrank : String → String
  extract_entities_vertex_ai : String → String
  extract_entities_nl_api : String → String
  extract_entities_spacy : String → String
  get_embedding : String → Except String (List Int)
  gcs_bucket_name : String
  index_ok : Bool
  upsert_ok : String → Bool

/-- The document-store and vector-index contents touched by one ingestion
run, both keyed by article id. -/
structure PipeState where
  store : String → Option ArticleRecord
  index : String → Option (List Int)

/-- Python `str.split()` word counting, as in
`full_df[text_column].str.split().str.len()`: split the character sequence
at every whitespace character and count the non-empty chunks, i.e. the
maximal whitespace-free runs. -/
def wordCount (s : String) : Nat :=
  ((s.data.splitOnP fun c => c.isWhitespace).filter fun w => w ≠ []).length

/-- An error raised out of `load_and_sample_data`: either the GCS download
failed or the filtered pool is smaller than the requested sample size
(the `ValueError`). -/
inductive LoadError where
  | downloadFailed (msg : String)
  | valueError (pool requested : Nat)
  deriving DecidableEq, Repr

/-- Embeds `load_and_sample_data` from `src/data/data_loader.py`: load the
full frame, optionally keep only rows whose document has fewer than
`max_words` words, raise `ValueError` when fewer than `n_samples` rows
remain, and otherwise sample exactly `n_samples` rows. -/
def load_and_sample_data (env : IngestEnv) (n_samples : Nat)
    (max_words : Option Nat) : Except LoadError (List Row) :=
  match env.sourceRows with
  | .error e => .error (.downloadFailed e)
  | .ok full_df =>
    let filtered := match max_words with
      | some mw => full_df.filter fun r => wordCount r.document < mw
      | none => full_df
    if filtered.length < n_samples then
      .error (.valueError filtered.length n_samples)
    else
      .ok (env.sample filtered n_samples)

/-- The record assembled for one row inside the processing loop of
`run_pipeline`, mirroring the dict passed to `firestore_doc_ref.set`. -/
def ingestRecord (env : IngestEnv) (row : Row) : ArticleRecord :=
  { gcs_uri := "gs://" ++ env.gcs_bucket_name ++ "/" ++ "xsum/train.jsonl"
    document_id_in_file := row.id
    reference_summary := row.summary
    gemini_summary := env.summarize_gemini row.document
    textrank_summary := env.summarize_textrank row.document
    vertex_ai_extraction := env.extract_entities_vertex_ai row.document
    nl_api_entities := env.extract_entities_nl_api row.document
    spacy_entities := env.extract_entities_spacy row.document }

/-- One iteration of the processing loop of `run_pipeline`: run the
enrichment producers, create the embedding — on failure the row is skipped
entirely (`continue`), leaving the state untouched — then overwrite the
store record under the row's id and, when the index endpoint is configured
and the upsert succeeds, overwrite the index vector under the same id. -/
def process_row (env : IngestEnv) (st : PipeState) (row : Row) : PipeState :=
  match env.get_embedding row.document with
  | .error _ => st
  | .ok embedding =>
    let record := ingestRecord env row
    let st1 : PipeState :=
      { st with store := fun k => if k = row.id then some record else st.store k }
    if env.index_ok then
      if env.upsert_ok row.id then
        { st1 with
          index := fun k => if k = row.id then some embedding else st1.index k }
      else st1
    else st1

/-- The processing loop of `run_pipeline` over the sampled rows. -/
def process_rows (env : IngestEnv) (rows : List Row) (st : PipeState) :
    PipeState :=
  rows.foldl (process_row env) st

/-- Embeds `run_pipeline` from `src/main.py`: any exception from
`load_and_sample_data` is caught and the run returns before any write;
otherwise every sampled row is processed. -/
def run_pipeline (env : IngestEnv) (samples : Nat) (st : PipeState) :
    PipeState :=
  match load_and_sample_data env samples (some 1000) with
  | .error _ => st
  | .ok rows => process_rows env rows st

/-- C7: when the word-count filter leaves a pool smaller than the requested
sample size, `load_and_sample_data` raises the `ValueError` and
`run_pipeline` aborts with the state unchanged — zero document-store writes
and zero vector-index upserts. -/
theorem run_pipeline_sampling_fatal (env : IngestEnv) (samples : Nat)
    (st : PipeState) (full : List Row)
    (hsrc : env.sourceRows = .ok full)
    (hpool : (full.filter fun r => wordCount r.document < 1000).length
      < samples) :
    load_and_sample_data env samples (some 1000) =
      .error (.valueError
        (full.filter fun r => wordCount r.document < 1000).length samples) ∧
    run_pipeline env samples st = st := by
  have hload : load_and_sample_data env samples (some 1000) =
      .error (.valueError
        (full.filter fun r => wordCount r.document < 1000).length samples) := by
    unfold load_and_sample_data
    rw [hsrc]
    simp [hpool]
  exact ⟨hload, by unfold run_pipeline; rw [hload]⟩

/-- A two-row source pool of short documents. -/
def smallPool : List Row :=
  [{ id := "1", document := "one short doc", summary := "s1" },
   { id := "2", document := "another short doc", summary := "s2" }]

/-- A concrete ingestion environment over `smallPool` whose other
collaborators all succeed. -/
def envSmallPool : IngestEnv :=
  { sourceRows := .ok smallPool
    sample := fun rows n => rows.take n
    summarize_gemini := fun _ => "g"
    summarize_textrank := fun _ => "t"
    extract_entities_vertex_ai := fun _ => "v"
    extract_entities_nl_api := fun _ => "n"
    extract_entities_spacy := fun _ => "s"
    get_embedding := fun _ => .ok [1]
    gcs_bucket_name := "bucket"
    index_ok := true
    upsert_ok := fun _ => true }

/-- An initial state with an empty store and index. -/
def emptyState : PipeState :=
  { store := fun _ => none, index := fun _ => none }

/-- Witness for C7: requesting 3 samples from a filtered pool of 2 rows
raises the `ValueError` and leaves the state untouched. -/
theorem run_pipeline_sampling_fatal_witness :
    envSmallPool.sourceRows = .ok smallPool ∧
    (smallPool.filter fun r => wordCount r.document < 1000).length < 3 ∧
    (load_and_sample_data envSmallPool 3 (some 1000) =
       .error (.valueError
         (smallPool.filter fun r => wordCount r.document < 1000).length 3) ∧
     run_pipeline envSmallPool 3 emptyState = emptyState) :=
  ⟨rfl, by decide,
   run_pipeline_sampling_fatal envSmallPool 3 emptyState smallPool rfl
     (by decide)⟩

/-- C8: a row whose embedding call raises is skipped entirely — processing
it leaves the state unchanged, so no document-store write and no
vector-index upsert happen for its id — and the loop continues with the
remaining rows exactly as if the row were absent. -/
theorem process_row_embedding_failure (env : IngestEnv) (row : Row)
    (st : PipeState) (e : String)
    (hfail : env.get_embedding row.document = .error e) :
    process_row env st row = st ∧
    ∀ rest, process_rows env (row :: rest) st = process_rows env rest st := by
  have hrow : process_row env st row = st := by
    unfold process_row
    rw [hfail]
  exact ⟨hrow, fun rest => by unfold process_rows; rw [List.foldl_cons, hrow]⟩

/-- A concrete ingestion environment whose embedding provider raises on one
document. -/
def envEmbedFailsOnBad : IngestEnv :=
  { envSmallPool with
    get_embedding := fun t =>
      if t = "bad doc" then .error "embedding failure" else .ok [1] }

/-- The row whose embedding fails under `envEmbedFailsOnBad`. -/
def badRow : Row := { id := "bad", document := "bad doc", summary := "sb" }

/-- Witness for C8: the failing row leaves the state unchanged and the loop
continues with the remaining rows. -/
theorem process_row_embedding_failure_witness :
    envEmbedFailsOnBad.get_embedding badRow.document =
      .error "embedding failure" ∧
    (process_row envEmbedFailsOnBad emptyState badRow = emptyState ∧
     ∀ rest, process_rows envEmbedFailsOnBad (badRow :: rest) emptyState =
       process_rows envEmbedFailsOnBad rest emptyState) :=
  ⟨rfl,
   process_row_embedding_failure envEmbedFailsOnBad badRow emptyState
     "embedding failure" rfl⟩

/-- The record, if any, that processing `rows` head to tail leaves under key
`k`: the latest row with that id whose embedding succeeded wins, and a row
whose embedding fails writes nothing. -/
def last_store_write (env : IngestEnv) :
    List Row → String → Option ArticleRecord
  | [], _ => none
  | row :: rest, k =>
    match last_store_write env rest k with
    | some r => some r
    | none =>
      match env.get_embedding row.document with
      | .error _ => none
      | .ok _ => if k = row.id then some (ingestRecord env row) else none

/-- When the embedding of a row succeeds, processing it overwrites exactly
the store entry under the row's id and leaves every other key unchanged. -/
theorem process_row_store_ok (env : IngestEnv) (row : Row) (st : PipeState)
    (emb : List Int) (h : env.get_embedding row.document = .ok emb) :
    (process_row env st row).store = fun k =>
      if k = row.id then some (ingestRecord env row) else st.store k := by
  unfold process_row
  rw [h]
  cases hio : env.index_ok with
  | false => simp [hio]
  | true =>
    cases huo : env.upsert_ok row.id with
    | false => simp [hio, huo]
    | true => simp [hio, huo]

/-- The store left by the processing loop is the last successful write per
key, falling back to the initial store on keys never written. -/
theorem process_rows_store (env : IngestEnv) :
    ∀ (rows : List Row) (st : PipeState) (k : String),
      (process_rows env rows st).store k =
        match last_store_write env rows k with
        | some r => some r
        | none => st.store k := by
  intro rows
  induction rows with
  | nil => intro st k; simp [process_rows, last_store_write]
  | cons row rest ih =>
    intro st k
    have hstep : process_rows env (row :: rest) st =
        process_rows env rest (process_row env st row) := by
      simp [process_rows]
    rw [hstep, ih]
    cases hlast : last_store_write env rest k with
    | some r => simp [last_store_write, hlast]
    | none =>
      simp only [last_store_write, hlast]
      cases hemb : env.get_embedding row.document with
      | error e =>
        have : process_row env st row = st := by unfold process_row; rw [hemb]
        rw [this]
      | ok emb =>
        rw [process_row_store_ok env row st emb hemb]
        by_cases hk : k = row.id
        · simp [hk]
        · simp [hk]

/-- The processing loop writes each key at most one final value per pass, so
a second identical pass recreates the same store. -/
theorem process_rows_store_idempotent (env : IngestEnv) (rows : List Row)
    (st : PipeState) :
    (process_rows env rows (process_rows env rows st)).store =
      (process_rows env rows st).store := by
  funext k
  rw [process_rows_store, process_rows_store]
  cases last_store_write env rows k with
  | some r => rfl
  | none => rfl

/-- C9: running the ingestion pipeline twice over the same sampled rows
yields a document-store state identical to running it once.  The sampler and
all producers are pure functions here, so both runs see the same sampled id
set and the same per-field values; each store write is a keyed overwrite of
the full record under the article id, so the second run reproduces the first
with no duplicates and no partial merges. -/
theorem run_pipeline_idempotent (env : IngestEnv) (samples : Nat)
    (st : PipeState) :
    (run_pipeline env samples (run_pipeline env samples st)).store =
      (run_pipeline env samples st).store := by
  unfold run_pipeline
  cases h : load_and_sample_data env samples (some 1000) with
  | error e => rfl
  | ok rows => exact process_rows_store_idempotent env rows st

end NewsAgent
